import Mathlib

/-
Verification of the HySerial io_uring engine core (RoboMaster-DLMU-CONE/HySerial)
against its natural-language specification.

The definitions below are a shallow embedding of the C++ sources:
  - src/include/HySerial/Util/Error.hpp        (ErrorCode)
  - src/src/Socket/Socket.cpp                  (baud_to_speed, Socket::ensure_connected)
  - src/include/HySerial/Interface/UringManager.hpp
        (RequestRecord, RequestArena, BufferPool)
  - src/src/Interface/UringManager.cpp
        (UringManager::submit_send, the per-CQE body of UringManager::run,
         UringManager::register_read_callback)

Machine integers are modelled as Nat/Int (ids are 64-bit and never reach the
wrap in any scenario considered; io_uring results are signed ints).  Kernel
interactions (SQE availability, io_uring_submit return values) are oracle
parameters.  Side effects (callback invocations, prepared writes, buffer
releases, fatal logs, thrown submit errors) are recorded as an event trace.
-/

namespace HySerial

/-- ErrorCode from include/HySerial/Util/Error.hpp (all six members). -/
inductive ErrorCode
  | SocketCreateError
  | InterfaceIndexError
  | SocketBindError
  | InvalidSocketError
  | SocketFlushError
  | UringInitError
deriving DecidableEq, Repr

/-- baud_to_speed from src/Socket/Socket.cpp, with the Linux termios speed
constants as numeric values (B0 = 0, B50 = 1, ..., B38400 = 15,
B57600 = 0o10001, ..., B921600 = 0o10007).  Unsupported rates map to 0,
and so does baud 0 itself because B0 is the value 0. -/
def baud_to_speed (baud : Nat) : Nat :=
  match baud with
  | 0 => 0
  | 50 => 1
  | 75 => 2
  | 110 => 3
  | 134 => 4
  | 150 => 5
  | 200 => 6
  | 300 => 7
  | 600 => 8
  | 1200 => 9
  | 1800 => 10
  | 2400 => 11
  | 4800 => 12
  | 9600 => 13
  | 19200 => 14
  | 38400 => 15
  | 57600 => 4097
  | 115200 => 4098
  | 230400 => 4099
  | 460800 => 4100
  | 921600 => 4103
  | _ => 0

/-- Oracle for the syscalls made by Socket::ensure_connected before and after
the baud check: the fd returned by open (-1 on failure) and the success of
tcgetattr, cfsetispeed/cfsetospeed, and tcsetattr. -/
structure TermiosOracle where
  openFd : Int
  tcgetattrOk : Bool
  cfsetspeedOk : Bool
  tcsetattrOk : Bool
deriving DecidableEq, Repr

/-- Socket::ensure_connected from src/Socket/Socket.cpp, reduced to its
fd/error skeleton: each failure path closes the device and sets sock_fd to
-1, returning the error code the source constructs there.  The pure flag
computations (data bits, parity, stop bits, flow control) touch no
observable state modelled here; ioctl and flush failures are non-fatal in
the source.  Returns (sock_fd after the call, error code if any). -/
def ensure_connected (baud : Nat) (o : TermiosOracle) : Int × Option ErrorCode :=
  if o.openFd = -1 then (-1, some ErrorCode.SocketCreateError)
  else if o.tcgetattrOk = false then (-1, some ErrorCode.SocketBindError)
  else if baud_to_speed baud = 0 then (-1, some ErrorCode.SocketBindError)
  else if o.cfsetspeedOk = false then (-1, some ErrorCode.SocketBindError)
  else if o.tcsetattrOk = false then (-1, some ErrorCode.SocketBindError)
  else (o.openFd, none)

/-- Identity of a write buffer: either a slot of the BufferPool or a
fallback allocation (numbered in allocation order).  shared_ptr identity
comparison in BufferPool::release distinguishes exactly these cases. -/
inductive BufId
  | pooled (i : Nat)
  | freshBuf (n : Nat)
deriving DecidableEq, Repr

/-- BufferPool from include/HySerial/Interface/UringManager.hpp: pool slot
contents, per-slot availability flags, and the contents of fallback
allocations handed out so far.  Capacities are not modelled (they never
affect contents). -/
structure BufferPool where
  poolBufs : List (List Nat)
  avail : List Bool
  freshBufs : List (List Nat)
deriving DecidableEq, Repr

/-- The BufferPool constructor: pool_size buffers of buffer_size zero bytes,
all available. -/
def BufferPool.init (poolSize bufSize : Nat) : BufferPool :=
  { poolBufs := List.replicate poolSize (List.replicate bufSize 0),
    avail := List.replicate poolSize true,
    freshBufs := [] }

/-- Index of the first available pool slot, as found by the acquire scan
(the compare-exchange loop takes the first slot whose flag is true). -/
def findAvail : List Bool → Option Nat
  | [] => none
  | b :: rest =>
    if b then some 0 else
      match findAvail rest with
      | some k => some (k + 1)
      | none => none

/-- BufferPool::acquire: claim the first available slot and clear its
contents (buf->clear(); reserve only changes capacity), or fall back to a
fresh std::vector<std::byte>(needed_size) - note the fallback vector has
SIZE needed_size, i.e. needed_size zero bytes, not merely capacity. -/
def BufferPool.acquire (p : BufferPool) (needed : Nat) : BufId × BufferPool :=
  match findAvail p.avail with
  | some i =>
      (BufId.pooled i,
       { p with avail := p.avail.set i false, poolBufs := p.poolBufs.set i [] })
  | none =>
      (BufId.freshBuf p.freshBufs.length,
       { p with freshBufs := p.freshBufs ++ [List.replicate needed 0] })

/-- Contents of the buffer behind a handle. -/
def BufferPool.getBuf (p : BufferPool) (b : BufId) : List Nat :=
  match b with
  | BufId.pooled i => p.poolBufs.getD i []
  | BufId.freshBuf n => p.freshBufs.getD n []

/-- Overwrite the contents of the buffer behind a handle. -/
def BufferPool.setBuf (p : BufferPool) (b : BufId) (v : List Nat) : BufferPool :=
  match b with
  | BufId.pooled i => { p with poolBufs := p.poolBufs.set i v }
  | BufId.freshBuf n => { p with freshBufs := p.freshBufs.set n v }

/-- buf->insert(buf->end(), data.begin(), data.end()): append to the buffer
through its shared handle. -/
def BufferPool.appendBuf (p : BufferPool) (b : BufId) (data : List Nat) : BufferPool :=
  p.setBuf b (p.getBuf b ++ data)

/-- BufferPool::release: the identity scan matches a pooled handle to its
own slot (clearing it and re-marking it available); fallback buffers match
no slot and are dropped. -/
def BufferPool.release (p : BufferPool) (b : BufId) : BufferPool :=
  match b with
  | BufId.pooled i =>
      if i < p.poolBufs.length then
        { p with poolBufs := p.poolBufs.set i [], avail := p.avail.set i true }
      else p
  | BufId.freshBuf _ => p

/-- RequestRecord from include/HySerial/Interface/UringManager.hpp (the
CompletionCallback member is never consulted by the paths modelled here). -/
structure RequestRecord where
  id : Nat := 0
  isWrite : Bool := false
  fd : Int := -1
  buf : Option BufId := none
  offset : Nat := 0
deriving DecidableEq, Repr

/-- RequestArena from include/HySerial/Interface/UringManager.hpp:
queue_depth slots of (record, occupied flag), indexed by id % queue_depth. -/
structure RequestArena where
  queueDepth : Nat
  records : List RequestRecord
  occupied : List Bool
deriving DecidableEq, Repr

/-- The RequestArena constructor: queue_depth default records, all slots
unoccupied. -/
def RequestArena.init (d : Nat) : RequestArena :=
  { queueDepth := d, records := List.replicate d {}, occupied := List.replicate d false }

/-- RequestArena::insert: write the record into slot id % queue_depth and
mark it occupied; a no-op when queue_depth is 0. -/
def RequestArena.insert (a : RequestArena) (id : Nat) (rcd : RequestRecord) : RequestArena :=
  if a.queueDepth = 0 then a
  else
    { a with records := a.records.set (id % a.queueDepth) rcd,
             occupied := a.occupied.set (id % a.queueDepth) true }

/-- RequestArena::find: slot id % queue_depth, provided it is occupied and
the stored record's id matches; none when queue_depth is 0. -/
def RequestArena.find (a : RequestArena) (id : Nat) : Option RequestRecord :=
  if a.queueDepth = 0 then none
  else
    if a.occupied.getD (id % a.queueDepth) false then
      if (a.records.getD (id % a.queueDepth) {}).id = id then
        some (a.records.getD (id % a.queueDepth) {})
      else none
    else none

/-- RequestArena::erase: clear the occupied flag of slot id % queue_depth;
a no-op when queue_depth is 0. -/
def RequestArena.erase (a : RequestArena) (id : Nat) : RequestArena :=
  if a.queueDepth = 0 then a
  else { a with occupied := a.occupied.set (id % a.queueDepth) false }

/-- RequestArena::clear: clear every occupied flag. -/
def RequestArena.clear (a : RequestArena) : RequestArena :=
  { a with occupied := a.occupied.map (fun _ => false) }

/-- m_active_requests lookup (ankerl::unordered_dense::map find). -/
def mapFind (m : List (Nat × RequestRecord)) (id : Nat) : Option RequestRecord :=
  match m with
  | [] => none
  | kr :: rest => if kr.1 = id then some kr.2 else mapFind rest id

/-- m_active_requests.emplace(id, rec): insert only when the key is absent. -/
def mapEmplace (m : List (Nat × RequestRecord)) (id : Nat) (rcd : RequestRecord) :
    List (Nat × RequestRecord) :=
  match mapFind m id with
  | some _ => m
  | none => m ++ [(id, rcd)]

/-- m_active_requests.erase(id). -/
def mapErase (m : List (Nat × RequestRecord)) (id : Nat) : List (Nat × RequestRecord) :=
  match m with
  | [] => []
  | kr :: rest => if kr.1 = id then mapErase rest id else kr :: mapErase rest id

/-- The offset write performed on the overflow map after a successful
partial-write resubmission (UringManager.cpp lines 397-403): find(id) in
m_active_requests and, when present, set its offset. -/
def mapSetOffset (m : List (Nat × RequestRecord)) (id : Nat) (off : Nat) :
    List (Nat × RequestRecord) :=
  m.map (fun kr => if kr.1 = id then (kr.1, { kr.2 with offset := off }) else kr)

/-- UringManager engine state: bound fd, engine-owned read buffer,
continue_read flag, next request id, arena, overflow map, buffer pool, and
whether each callback slot holds an installed callback. -/
structure Engine where
  fd : Int := -1
  readBuf : List Nat := []
  continueRead : Bool := false
  nextId : Nat := 1
  arena : RequestArena := RequestArena.init 0
  overflow : List (Nat × RequestRecord) := []
  pool : BufferPool := BufferPool.init 0 8192
  readCbInstalled : Bool := false
  writeCbInstalled : Bool := false
  errorCbInstalled : Bool := false
deriving DecidableEq, Repr

/-- Observable effects of the submission and completion paths. -/
inductive Event
  | readCb (data : List Nat)
  | writeCb (n : Int)
  | errorCb (e : Int)
  | logFatal
  | prepWrite (fd : Int) (bytes : List Nat)
  | releaseBuf (b : BufId)
  | submitted
  | threw (ret : Int)
deriving DecidableEq, Repr

/-- errno constant EINTR on Linux. -/
def cEINTR : Int := 4

/-- errno constant EAGAIN on Linux. -/
def cEAGAIN : Int := 11

/-- The record-storing step shared by submit_send and submit_read
(UringManager.cpp lines 170-178): arena when find(id) returns null,
otherwise the overflow map. -/
def storeRecord (a : RequestArena) (m : List (Nat × RequestRecord)) (id : Nat)
    (rcd : RequestRecord) : RequestArena × List (Nat × RequestRecord) :=
  match a.find id with
  | none => (a.insert id rcd, m)
  | some _ => (a, mapEmplace m id rcd)

/-- The tail of UringManager::submit_send after the buffer was acquired,
filled, and the id allocated: get an SQE (releasing the buffer and dropping
silently when exhausted), store the record, prepare a write of the whole
buffer, submit; a negative submit return erases the record, releases the
buffer and throws. -/
def submit_send_after (e : Engine) (b : BufId) (id : Nat) (bytes : List Nat)
    (sqeAvail : Bool) (submitRet : Int) : Engine × List Event :=
  if sqeAvail = false then ({ e with pool := e.pool.release b }, [])
  else
    let sm := storeRecord e.arena e.overflow id
      { id := id, isWrite := true, fd := e.fd, buf := some b, offset := 0 }
    if submitRet < 0 then
      ({ e with arena := RequestArena.erase sm.1 id, overflow := mapErase sm.2 id,
                pool := e.pool.release b },
       [Event.prepWrite e.fd bytes, Event.threw submitRet])
    else
      ({ e with arena := sm.1, overflow := sm.2 },
       [Event.prepWrite e.fd bytes, Event.submitted])

/-- UringManager::submit_send: return silently when fd < 0; otherwise
acquire a pool buffer sized to the payload, append the payload into it,
allocate a fresh id, and continue with submit_send_after. -/
def submit_send (e : Engine) (payload : List Nat) (sqeAvail : Bool) (submitRet : Int) :
    Engine × List Event :=
  if e.fd < 0 then (e, [])
  else
    let b := (e.pool.acquire payload.length).1
    let p1 := BufferPool.appendBuf (e.pool.acquire payload.length).2 b payload
    submit_send_after { e with pool := p1, nextId := e.nextId + 1 } b e.nextId
      (p1.getBuf b) sqeAvail submitRet

/-- Erase a request id from both the arena and the overflow map, as every
cleanup site in UringManager::run does. -/
def eraseBoth (e : Engine) (id : Nat) : Engine :=
  { e with arena := e.arena.erase id, overflow := mapErase e.overflow id }

/-- Release the record's buffer back to the pool when the record has one
(the source guards with if (record.buf)). -/
def releaseRecBuf (e : Engine) (rcd : RequestRecord) : Engine :=
  match rcd.buf with
  | some b => { e with pool := e.pool.release b }
  | none => e

/-- The release event emitted when the record holds a buffer. -/
def releaseEvents (rcd : RequestRecord) : List Event :=
  match rcd.buf with
  | some b => [Event.releaseBuf b]
  | none => []

/-- Result of dispatching one CQE in UringManager::run: the engine state
afterwards, the event trace, and this completion's contribution to
need_rearm_read. -/
structure StepOut where
  st : Engine
  events : List Event
  needRearm : Bool
deriving DecidableEq, Repr

/-- The record lookup performed for each CQE in UringManager::run: the
arena first, then the overflow map, copying the record out. -/
def lookupRecord (e : Engine) (id : Nat) : Option RequestRecord :=
  match e.arena.find id with
  | some r => some r
  | none => mapFind e.overflow id

/-- The write-completion branch of UringManager::run (lines 303-427).
res == -EINTR resubmits the current tail (no state change on success; on
SQE exhaustion or submit failure: error_cb, erase, and NO buffer release,
as in the source).  Other res < 0: error_cb (or fatal log), erase, and NO
buffer release (the source omits it).  res >= 0 with offset + res still
short of the buffer: resubmit the remaining tail; on success the source
updates the offset only through m_active_requests.find(id) - the arena
copy of the record is left untouched; on SQE exhaustion or submit failure:
error_cb(-EAGAIN or the return), erase, release.  Otherwise write_cb with
the total, release the buffer, erase. -/
def handle_write_cqe (e : Engine) (id : Nat) (res : Int) (rcd : RequestRecord)
    (sqeAvail : Bool) (submitRet : Int) : StepOut :=
  let bufBytes :=
    match rcd.buf with
    | some b => e.pool.getBuf b
    | none => []
  if res = -cEINTR then
    if sqeAvail = false then
      StepOut.mk (eraseBoth e id)
        (if e.errorCbInstalled then [Event.errorCb (-cEINTR)] else []) false
    else if submitRet < 0 then
      StepOut.mk (eraseBoth e id)
        (Event.prepWrite rcd.fd (bufBytes.drop rcd.offset) ::
          (if e.errorCbInstalled then [Event.errorCb submitRet] else [])) false
    else
      StepOut.mk e
        [Event.prepWrite rcd.fd (bufBytes.drop rcd.offset), Event.submitted] false
  else if res < 0 then
    StepOut.mk (eraseBoth e id)
      (if e.errorCbInstalled then [Event.errorCb res] else [Event.logFatal]) false
  else
    if rcd.offset + res.toNat < bufBytes.length then
      if sqeAvail = false then
        StepOut.mk (releaseRecBuf (eraseBoth e id) rcd)
          ((if e.errorCbInstalled then [Event.errorCb (-cEAGAIN)] else []) ++
            releaseEvents rcd) false
      else if submitRet < 0 then
        StepOut.mk (releaseRecBuf (eraseBoth e id) rcd)
          (Event.prepWrite rcd.fd (bufBytes.drop (rcd.offset + res.toNat)) ::
            ((if e.errorCbInstalled then [Event.errorCb submitRet] else []) ++
              releaseEvents rcd)) false
      else
        StepOut.mk { e with overflow := mapSetOffset e.overflow id (rcd.offset + res.toNat) }
          [Event.prepWrite rcd.fd (bufBytes.drop (rcd.offset + res.toNat)),
           Event.submitted] false
    else
      StepOut.mk (releaseRecBuf (eraseBoth e id) rcd)
        ((if e.writeCbInstalled then [Event.writeCb (Int.ofNat (rcd.offset + res.toNat))]
          else []) ++ releaseEvents rcd) false

/-- The per-CQE body of UringManager::run: skip user_data 0; look the
record up (arena, then overflow) and skip when absent; dispatch the read
branch (error: error_cb or fatal log, erase, no re-arm; success: read_cb
over the first res bytes of the engine-owned read buffer when installed,
erase, request re-arm iff continue_read) or the write branch. -/
def handle_cqe (e : Engine) (id : Nat) (res : Int) (sqeAvail : Bool) (submitRet : Int) :
    StepOut :=
  if id = 0 then StepOut.mk e [] false
  else
    match lookupRecord e id with
    | none => StepOut.mk e [] false
    | some rcd =>
      if rcd.isWrite then handle_write_cqe e id res rcd sqeAvail submitRet
      else if res < 0 then
        StepOut.mk (eraseBoth e id)
          (if e.errorCbInstalled then [Event.errorCb res] else [Event.logFatal]) false
      else
        StepOut.mk (eraseBoth e id)
          (if e.readCbInstalled then [Event.readCb (e.readBuf.take res.toNat)] else [])
          e.continueRead

/-- Shared state of the callback-installation race between
UringManager::register_read_callback (installer thread) and the dispatch
sites in UringManager::run (worker thread): the set of callback objects
currently allocated, the owning m_read_cb_storage slot, the installer's
local old_storage variable, the atomic m_read_cb_ptr, the worker's loaded
copy of that pointer, and whether the worker has invoked through a pointer
whose object was already destroyed. -/
structure CbSys where
  alive : List Nat
  storage : Option Nat
  localOld : Option Nat
  ptr : Option Nat
  loaded : Option Nat
  invokedDangling : Bool
deriving DecidableEq, Repr

/-- Primitive steps of the two threads.  The installer steps are the
statements of register_read_callback in source order; dispLoad and
dispInvoke are the worker's acquire-load of m_read_cb_ptr and the
invocation through the loaded pointer. -/
inductive CbStep
  | allocNew (n : Nat)
  | moveOldToLocal
  | setStorage (n : Nat)
  | publishPtr (n : Nat)
  | destroyLocal
  | dispLoad
  | dispInvoke
deriving DecidableEq, Repr

/-- Effect of one primitive step on the shared state.  destroyLocal is the
destructor of the installer's local old_storage unique_ptr, run when
register_read_callback returns: it deallocates the previously installed
callback object.  dispInvoke records a dangling invocation when the loaded
pointer's object is no longer allocated. -/
def cbStep (s : CbSys) : CbStep → CbSys
  | CbStep.allocNew n => { s with alive := s.alive ++ [n] }
  | CbStep.moveOldToLocal => { s with localOld := s.storage, storage := none }
  | CbStep.setStorage n => { s with storage := some n }
  | CbStep.publishPtr n => { s with ptr := some n }
  | CbStep.destroyLocal =>
      match s.localOld with
      | some k => { s with alive := s.alive.filter (fun m => m ≠ k), localOld := none }
      | none => s
  | CbStep.dispLoad => { s with loaded := s.ptr }
  | CbStep.dispInvoke =>
      match s.loaded with
      | some k => if s.alive.contains k then s else { s with invokedDangling := true }
      | none => s

/-- Run a sequence of interleaved steps. -/
def runSteps (s : CbSys) : List CbStep → CbSys
  | [] => s
  | st :: rest => runSteps (cbStep s st) rest

/-- The statements of UringManager::register_read_callback installing
callback object n, in source order; the trailing destroyLocal is the local
old_storage destructor at function exit. -/
def registerReadCallbackSteps (n : Nat) : List CbStep :=
  [CbStep.allocNew n, CbStep.moveOldToLocal, CbStep.setStorage n,
   CbStep.publishPtr n, CbStep.destroyLocal]

/-- Shared state after a first, uncontended installation of callback
object 1: the object is allocated, owned by m_read_cb_storage, and
published in m_read_cb_ptr; the worker holds no loaded pointer. -/
def cbInit : CbSys :=
  { alive := [1], storage := some 1, localOld := none, ptr := some 1,
    loaded := none, invokedDangling := false }

/-- Concrete scenario for claim C1: a write record for id 1 lives in the
arena (slot 1 of depth 4), its pooled buffer holds 10 bytes, nothing was
written yet (offset 0). -/
def c1Rec : RequestRecord :=
  { id := 1, isWrite := true, fd := 3, buf := some (BufId.pooled 0), offset := 0 }

/-- Engine state for the C1 scenario. -/
def c1Engine : Engine :=
  { fd := 3, readBuf := [], continueRead := false, nextId := 2,
    arena := RequestArena.insert (RequestArena.init 4) 1 c1Rec, overflow := [],
    pool := BufferPool.mk [[1, 2, 3, 4, 5, 6, 7, 8, 9, 10]] [false] [],
    readCbInstalled := false, writeCbInstalled := true, errorCbInstalled := true }

/-- Concrete scenario for claim C2: a write record for id 1 in the arena
with a pooled 3-byte buffer. -/
def c2Rec : RequestRecord :=
  { id := 1, isWrite := true, fd := 3, buf := some (BufId.pooled 0), offset := 0 }

/-- Engine state for the C2 scenario. -/
def c2Engine : Engine :=
  { fd := 3, readBuf := [], continueRead := false, nextId := 2,
    arena := RequestArena.insert (RequestArena.init 4) 1 c2Rec, overflow := [],
    pool := BufferPool.mk [[1, 2, 3]] [false] [],
    readCbInstalled := false, writeCbInstalled := true, errorCbInstalled := true }

/-- Concrete scenario for claim C3: queue depth 1, the single arena slot
occupied by live write id 1, a two-slot pool with slot 1 free; the next
allocated id will be 2, which maps to the same slot. -/
def c3OldRec : RequestRecord :=
  { id := 1, isWrite := true, fd := 3, buf := some (BufId.pooled 0), offset := 0 }

/-- Engine state for the C3 scenario. -/
def c3Engine : Engine :=
  { fd := 3, readBuf := [], continueRead := false, nextId := 2,
    arena := RequestArena.insert (RequestArena.init 1) 1 c3OldRec, overflow := [],
    pool := BufferPool.mk [[9], []] [false, true] [],
    readCbInstalled := false, writeCbInstalled := true, errorCbInstalled := true }

/-- Concrete scenario for claim C4: the pool is exhausted (its single slot
unavailable), so submit_send takes the fallback-allocation path. -/
def c4Engine : Engine :=
  { fd := 3, readBuf := [], continueRead := false, nextId := 1,
    arena := RequestArena.init 4, overflow := [],
    pool := BufferPool.mk [[9, 9]] [false] [],
    readCbInstalled := false, writeCbInstalled := true, errorCbInstalled := true }

/-- Concrete scenario for claim C6: a read record for id 1 in the arena,
continuous read enabled, read callback installed, 4-byte read buffer. -/
def c6Rec : RequestRecord :=
  { id := 1, isWrite := false, fd := 3, buf := none, offset := 0 }

/-- Engine state for the C6 witness. -/
def c6Engine : Engine :=
  { fd := 3, readBuf := [7, 8, 9, 10], continueRead := true, nextId := 2,
    arena := RequestArena.insert (RequestArena.init 2) 1 c6Rec, overflow := [],
    pool := BufferPool.init 1 4, readCbInstalled := true,
    writeCbInstalled := false, errorCbInstalled := false }

/-- Concrete engine for the C7 witness: bound fd, one free pool slot,
write callback installed. -/
def c7Engine : Engine :=
  { fd := 3, readBuf := [], continueRead := false, nextId := 1,
    arena := RequestArena.init 4, overflow := [],
    pool := BufferPool.mk [[5, 5]] [true] [],
    readCbInstalled := false, writeCbInstalled := true, errorCbInstalled := false }

/-- Record stored for the C7 witness completion: the zero-length write of
id 1 with its cleared pool buffer. -/
def c7Rec : RequestRecord :=
  { id := 1, isWrite := true, fd := 3, buf := some (BufId.pooled 0), offset := 0 }

/-- Engine state for the second half of the C7 witness: the zero-length
write of id 1 is in flight with its empty pooled buffer. -/
def c7EngineAfter : Engine :=
  { fd := 3, readBuf := [], continueRead := false, nextId := 2,
    arena := RequestArena.insert (RequestArena.init 4) 1 c7Rec, overflow := [],
    pool := BufferPool.mk [[]] [false] [],
    readCbInstalled := false, writeCbInstalled := true, errorCbInstalled := false }

/-- Concrete engine for the C8 witness: no valid fd bound. -/
def c8Engine : Engine :=
  { fd := -1, readBuf := [], continueRead := false, nextId := 5,
    arena := RequestArena.init 4, overflow := [],
    pool := BufferPool.init 2 4, readCbInstalled := true,
    writeCbInstalled := true, errorCbInstalled := true }

/-- Helper: List.getD after setting the same in-range index. -/
theorem list_getD_set_self {α : Type} (l : List α) (i : Nat) (x d : α) (h : i < l.length) :
    (l.set i x).getD i d = x := by
  induction l generalizing i with
  | nil => simp at h
  | cons a t ih =>
    cases i with
    | zero => rfl
    | succ j =>
      have hj : j < t.length := Nat.lt_of_succ_lt_succ h
      simpa [List.getD] using ih j hj

/-- Helper: setting an index of a Bool list to false makes getD at that
index false whether or not the index is in range. -/
theorem getD_set_false (l : List Bool) (i : Nat) :
    ((l.set i false)[i]?).getD false = false := by
  induction l generalizing i with
  | nil => simp
  | cons a t ih =>
    cases i with
    | zero => simp
    | succ j => simpa using ih j

/-- Helper: getD of a singleton appended at the end, at the old length. -/
theorem getD_append_len {α : Type} (l : List α) (x d : α) :
    (l ++ [x]).getD l.length d = x := by
  induction l with
  | nil => rfl
  | cons a t ih => simp [List.getD]

/-- Helper: the slot index found by the acquire scan is in range. -/
theorem findAvail_lt (l : List Bool) (i : Nat) (h : findAvail l = some i) : i < l.length := by
  induction l generalizing i with
  | nil => exact absurd h (by simp [findAvail])
  | cons b t ih =>
    rw [findAvail] at h
    by_cases hb : b = true
    · rw [if_pos hb] at h
      cases h
      simp
    · rw [if_neg hb] at h
      cases hfa : findAvail t with
      | none => rw [hfa] at h; cases h
      | some j =>
        rw [hfa] at h
        cases h
        exact Nat.succ_lt_succ (ih j hfa)

/-- Helper: after RequestArena::erase(id), find(id) returns none. -/
theorem arena_find_erase (a : RequestArena) (id : Nat) :
    RequestArena.find (RequestArena.erase a id) id = none := by
  unfold RequestArena.erase RequestArena.find
  by_cases h : a.queueDepth = 0
  · simp [h]
  · simp [h, getD_set_false]

/-- Helper: after erasing an id from the overflow map, looking it up
returns none. -/
theorem mapFind_mapErase (m : List (Nat × RequestRecord)) (id : Nat) :
    mapFind (mapErase m id) id = none := by
  induction m with
  | nil => rfl
  | cons kr t ih =>
    rw [mapErase]
    by_cases h : kr.1 = id
    · simpa [h] using ih
    · simpa [mapFind, h] using ih

/-- Claim C1: on a partial write success the engine re-prepares the
remaining tail under the same id, and the claim says the stored record's
offset is then updated to offset + res regardless of where the record is
held.  Evaluating the code at a record held in the arena (offset 0, buffer
length 10, res = 4, SQE available, submit succeeding) shows the tail
[5..10] is prepared and submitted but the arena record keeps offset 0: the
source updates the offset only through m_active_requests.find(id), so the
next completion for id 1 observes offset 0, not 4. -/
theorem write_continuation_offset_stale :
    (handle_cqe c1Engine 1 4 true 0).events =
      [Event.prepWrite 3 [5, 6, 7, 8, 9, 10], Event.submitted] ∧
    RequestArena.find (handle_cqe c1Engine 1 4 true 0).st.arena 1 = some c1Rec ∧
    c1Rec.offset = 0 := by decide

/-- Claim C2: the claim says the pool buffer is released exactly once at
every terminal completion, including failures with res < 0 and
res ≠ -EINTR.  Evaluating the code at such a failure (res = -5) shows the
record is erased and error_cb fires, but no release happens: the trace has
no releaseBuf event and the pool slot stays unavailable, so the buffer of
a failed write is never returned to the pool. -/
theorem write_error_buffer_not_released :
    (handle_cqe c2Engine 1 (-5) true 0).events = [Event.errorCb (-5)] ∧
    (handle_cqe c2Engine 1 (-5) true 0).st.pool.avail = [false] ∧
    RequestArena.find (handle_cqe c2Engine 1 (-5) true 0).st.arena 1 = none ∧
    mapFind (handle_cqe c2Engine 1 (-5) true 0).st.overflow 1 = none := by decide

/-- Claim C3: the claim says that when a fresh id's arena slot is occupied
by a different live id, the new record goes to the overflow mapping and
the occupant stays intact.  Evaluating submit_send at queue depth 1 with
live id 1 occupying slot 0 and fresh id 2: before the call id 1 is
findable; afterwards the arena slot holds id 2's record, the overflow map
is still empty, and id 1's record is findable nowhere - the occupant was
overwritten (RequestArena::find returns null for a slot occupied by a
different id, so the submitter inserts over it), violating "never neither". -/
theorem collision_overwrites_arena_slot :
    lookupRecord c3Engine 1 = some c3OldRec ∧
    lookupRecord (submit_send c3Engine [7] true 0).1 1 = none ∧
    RequestArena.find (submit_send c3Engine [7] true 0).1.arena 2 =
      some { id := 2, isWrite := true, fd := 3, buf := some (BufId.pooled 1), offset := 0 } ∧
    (submit_send c3Engine [7] true 0).1.overflow = [] := by decide

/-- Claim C4: the claim says the buffer handed to the kernel contains
exactly the payload bytes, also when the pool is exhausted and a fallback
buffer is used.  Evaluating submit_send with an exhausted pool and payload
[10, 20]: the fallback allocates std::vector<std::byte>(2) - two zero
bytes of SIZE, not capacity - and the payload is appended after them, so
the prepared write covers [0, 0, 10, 20]: two zero bytes are prepended and
the write length is doubled. -/
theorem fallback_buffer_prepends_zeros :
    (submit_send c4Engine [10, 20] true 0).2 =
      [Event.prepWrite 3 [0, 0, 10, 20], Event.submitted] := by decide

/-- Claim C9: the claim says the previously installed callback object is
kept alive while a dispatcher may still be invoking it.  In the code,
register_read_callback moves the old owning handle into a local that is
destroyed when the function returns.  The first conjunct exhibits the
interleaving: the worker acquire-loads the old pointer, the installer then
runs all of register_read_callback(2) (destroying object 1 at exit), and
the worker invokes through the stale pointer - an invocation of a
destroyed object.  The second conjunct shows the sequential order is fine,
so the defect is precisely the retirement timing the claim describes. -/
theorem callback_swap_invokes_destroyed_object :
    (runSteps cbInit
      (CbStep.dispLoad :: (registerReadCallbackSteps 2 ++ [CbStep.dispInvoke]))).invokedDangling
      = true ∧
    (runSteps cbInit
      (registerReadCallbackSteps 2 ++ [CbStep.dispLoad, CbStep.dispInvoke])).invokedDangling
      = false := by decide

/-- Claim C5 counterexample: the claim says an unsupported baud rate fails
with an UnsupportedBaud error, a distinct member of the error taxonomy.
The ErrorCode enumeration has no such member, and evaluating
ensure_connected shows the unsupported-baud failure (baud 12345, all
syscalls fine) returns SocketBindError - the very code returned for a
failure unrelated to baud (tcgetattr failing at baud 115200) - so the
error is not a distinct member of the taxonomy. -/
theorem unsupported_baud_not_distinct_error :
    ensure_connected 12345 (TermiosOracle.mk 3 true true true) =
      (-1, some ErrorCode.SocketBindError) ∧
    ensure_connected 115200 (TermiosOracle.mk 3 false true true) =
      (-1, some ErrorCode.SocketBindError) := by decide

/-- Claim C5 as amended: when the baud rate is not one of the enumerated
standard speeds (baud_to_speed maps it to 0), opening fails with a
SocketBindError - the shared configuration-failure code, there being no
UnsupportedBaud member - and the device fd is closed (sock_fd is -1
afterwards). -/
theorem unsupported_baud_socket_bind_error (baud : Nat) (o : TermiosOracle)
    (hopen : o.openFd ≠ -1) (htc : o.tcgetattrOk = true)
    (hbaud : baud_to_speed baud = 0) :
    ensure_connected baud o = (-1, some ErrorCode.SocketBindError) := by
  simp [ensure_connected, hopen, htc, hbaud]

/-- Witness for unsupported_baud_socket_bind_error at baud 12345 with open
returning fd 3 and tcgetattr succeeding. -/
theorem unsupported_baud_socket_bind_error_witness :
    ((TermiosOracle.mk 3 true true true).openFd ≠ -1 ∧
     (TermiosOracle.mk 3 true true true).tcgetattrOk = true ∧
     baud_to_speed 12345 = 0) ∧
    ensure_connected 12345 (TermiosOracle.mk 3 true true true) =
      (-1, some ErrorCode.SocketBindError) :=
  ⟨by decide,
   unsupported_baud_socket_bind_error 12345 (TermiosOracle.mk 3 true true true)
     (by decide) (by decide) (by decide)⟩

/-- Claim C8: submit_send called while no valid fd is bound (fd < 0)
returns with the engine state exactly unchanged and an empty event trace:
no pool buffer is acquired, no id is allocated, no record is stored, and
nothing is prepared or submitted. -/
theorem send_unbound_fd_silent (e : Engine) (payload : List Nat) (sa : Bool) (sr : Int)
    (h : e.fd < 0) : submit_send e payload sa sr = (e, []) := by
  simp [submit_send, h]

/-- Witness for send_unbound_fd_silent at a concrete unbound engine. -/
theorem send_unbound_fd_silent_witness :
    c8Engine.fd < 0 ∧ submit_send c8Engine [1, 2] true 0 = (c8Engine, []) :=
  ⟨by decide, send_unbound_fd_silent c8Engine [1, 2] true 0 (by decide)⟩

/-- Claim C10: for a RequestArena of queue depth 0 (whose slot vectors are
empty, as built by the constructor), every operation is total and safe:
insert and erase return the arena unchanged without touching a slot, find
returns none for every id, and clear leaves the arena unchanged.  The
queue-depth guard in each of insert, find and erase returns before the
id % queue_depth computation, and clear only iterates the empty flag
vector, so no modulo-by-zero or out-of-bounds slot access occurs. -/
theorem arena_depth_zero_safe (a : RequestArena) (h : a.queueDepth = 0)
    (hocc : a.occupied = []) :
    (∀ id rcd, RequestArena.insert a id rcd = a) ∧
    (∀ id, RequestArena.find a id = none) ∧
    (∀ id, RequestArena.erase a id = a) ∧
    RequestArena.clear a = a := by
  obtain ⟨d, rs, oc⟩ := a
  simp only at h hocc
  subst h
  subst hocc
  refine ⟨?_, ?_, ?_, ?_⟩ <;>
    simp [RequestArena.insert, RequestArena.find, RequestArena.erase, RequestArena.clear]

/-- Witness for arena_depth_zero_safe at the arena the constructor builds
for queue depth 0, probing insert, find and erase at id 5. -/
theorem arena_depth_zero_safe_witness :
    ((RequestArena.init 0).queueDepth = 0 ∧ (RequestArena.init 0).occupied = []) ∧
    (RequestArena.insert (RequestArena.init 0) 5 c6Rec = RequestArena.init 0 ∧
     RequestArena.find (RequestArena.init 0) 5 = none ∧
     RequestArena.erase (RequestArena.init 0) 5 = RequestArena.init 0 ∧
     RequestArena.clear (RequestArena.init 0) = RequestArena.init 0) :=
  ⟨by decide,
   by
    have h := arena_depth_zero_safe (RequestArena.init 0) (by decide) (by decide)
    exact ⟨h.1 5 c6Rec, h.2.1 5, h.2.2.1 5, h.2.2.2⟩⟩

/-- Claim C6: for a read completion with res >= 0 whose record is found
(arena first, then overflow) and with a read callback installed, the
callback is invoked exactly once with the first res bytes of the
engine-owned read buffer - a span of length exactly res, given the kernel
contract res <= read_buffer.size() - the record is then findable in
neither the arena nor the overflow map, and a re-arm is requested iff
continue_read holds at that moment. -/
theorem read_completion_dispatch (e : Engine) (id : Nat) (res : Int) (rcd : RequestRecord)
    (sa : Bool) (sr : Int) (hid : id ≠ 0) (hfind : lookupRecord e id = some rcd)
    (hread : rcd.isWrite = false) (hres : 0 ≤ res)
    (hlen : res.toNat ≤ e.readBuf.length) (hcb : e.readCbInstalled = true) :
    (handle_cqe e id res sa sr).events = [Event.readCb (e.readBuf.take res.toNat)] ∧
    (e.readBuf.take res.toNat).length = res.toNat ∧
    RequestArena.find (handle_cqe e id res sa sr).st.arena id = none ∧
    mapFind (handle_cqe e id res sa sr).st.overflow id = none ∧
    (handle_cqe e id res sa sr).needRearm = e.continueRead := by
  have hnl : ¬ res < 0 := not_lt.mpr hres
  have hcqe : handle_cqe e id res sa sr =
      StepOut.mk (eraseBoth e id) [Event.readCb (e.readBuf.take res.toNat)]
        e.continueRead := by
    unfold handle_cqe
    rw [if_neg hid, hfind]
    simp [hread, hnl, hcb]
  rw [hcqe]
  refine ⟨rfl, ?_, ?_, ?_, rfl⟩
  · rw [List.length_take]
    exact Nat.min_eq_left hlen
  · exact arena_find_erase e.arena id
  · exact mapFind_mapErase e.overflow id

/-- Witness for read_completion_dispatch: engine c6Engine, read record id
1, res = 3 over the 4-byte read buffer [7, 8, 9, 10]. -/
theorem read_completion_dispatch_witness :
    ((1 : Nat) ≠ 0 ∧ lookupRecord c6Engine 1 = some c6Rec ∧
     c6Rec.isWrite = false ∧ (0 : Int) ≤ 3 ∧
     (3 : Int).toNat ≤ c6Engine.readBuf.length ∧ c6Engine.readCbInstalled = true) ∧
    ((handle_cqe c6Engine 1 3 false 0).events =
       [Event.readCb (c6Engine.readBuf.take (3 : Int).toNat)] ∧
     (c6Engine.readBuf.take (3 : Int).toNat).length = (3 : Int).toNat ∧
     RequestArena.find (handle_cqe c6Engine 1 3 false 0).st.arena 1 = none ∧
     mapFind (handle_cqe c6Engine 1 3 false 0).st.overflow 1 = none ∧
     (handle_cqe c6Engine 1 3 false 0).needRearm = c6Engine.continueRead) :=
  ⟨by decide,
   read_completion_dispatch c6Engine 1 3 c6Rec false 0 (by decide) (by decide)
     (by decide) (by decide) (by decide) (by decide)⟩

/-- Helper: acquiring a buffer for a zero-length payload and appending the
(empty) payload leaves the buffer contents empty, on both the pooled path
(the slot is cleared) and the fallback path (a vector of size 0). -/
theorem acquire_append_nil_getBuf (p : BufferPool) (h : p.avail.length ≤ p.poolBufs.length) :
    BufferPool.getBuf
      (BufferPool.appendBuf (BufferPool.acquire p 0).2 (BufferPool.acquire p 0).1 [])
      (BufferPool.acquire p 0).1 = [] := by
  unfold BufferPool.acquire
  cases hfa : findAvail p.avail with
  | some i =>
    have hi : i < p.poolBufs.length := lt_of_lt_of_le (findAvail_lt p.avail i hfa) h
    simp only [BufferPool.appendBuf, BufferPool.getBuf, BufferPool.setBuf]
    rw [list_getD_set_self _ i [] [] hi]
    have h2 : i < (p.poolBufs.set i ([] : List Nat)).length := by
      rw [List.length_set]
      exact hi
    simpa using list_getD_set_self (p.poolBufs.set i []) i [] [] h2
  | none =>
    simp only [BufferPool.appendBuf, BufferPool.getBuf, BufferPool.setBuf,
      List.replicate]
    rw [getD_append_len p.freshBufs [] []]
    have h2 : p.freshBufs.length < (p.freshBufs ++ [([] : List Nat)]).length := by
      simp
    simp [list_getD_set_self (p.freshBufs ++ [[]]) p.freshBufs.length [] [] h2]

/-- Claim C7: a zero-length send with a bound fd is not skipped.  First
part: submit_send on the empty payload (with an SQE available and submit
succeeding, and the pool well formed) allocates an id and prepares and
submits a write whose buffer is empty - a write request of length 0.
Second part: when that request's completion arrives with result 0 and the
write callback is installed, the callback fires exactly once with argument
0 and the buffer is released - settling the alternative the specification
leaves open in favour of write_cb(0). -/
theorem zero_length_send_write_cb :
    (∀ e : Engine, 0 ≤ e.fd → e.pool.avail.length ≤ e.pool.poolBufs.length →
      (submit_send e [] true 0).2 = [Event.prepWrite e.fd [], Event.submitted] ∧
      (submit_send e [] true 0).1.nextId = e.nextId + 1) ∧
    (∀ (e : Engine) (id : Nat) (b : BufId) (rcd : RequestRecord),
      id ≠ 0 → lookupRecord e id = some rcd → rcd.isWrite = true →
      rcd.buf = some b → rcd.offset = 0 → BufferPool.getBuf e.pool b = [] →
      e.writeCbInstalled = true →
      (handle_cqe e id 0 true 0).events = [Event.writeCb 0, Event.releaseBuf b]) := by
  have h0 : ¬ ((0 : Int) < 0) := by decide
  have h1 : ¬ (true = false) := by decide
  constructor
  · intro e hfd hwf
    have hnl : ¬ e.fd < 0 := not_lt.mpr hfd
    have hb := acquire_append_nil_getBuf e.pool hwf
    constructor
    · simp [submit_send, submit_send_after, hnl, hb, h0, h1]
    · simp [submit_send, submit_send_after, hnl, h0, h1]
  · intro e id b rcd hid hfind hw hbuf hoff hempty hwcb
    have h2 : ¬ ((0 : Int) = -cEINTR) := by decide
    unfold handle_cqe
    rw [if_neg hid, hfind]
    simp only [hw, if_true]
    unfold handle_write_cqe
    rw [hbuf]
    simp [h2, h0, hempty, hoff, hwcb, hbuf, releaseEvents]

/-- Witness for zero_length_send_write_cb: the submission half at
c7Engine, and the completion half at c7EngineAfter with the in-flight
zero-length record c7Rec of id 1 and the cleared pool buffer. -/
theorem zero_length_send_write_cb_witness :
    ((0 : Int) ≤ c7Engine.fd ∧
     c7Engine.pool.avail.length ≤ c7Engine.pool.poolBufs.length ∧
     lookupRecord c7EngineAfter 1 = some c7Rec ∧
     BufferPool.getBuf c7EngineAfter.pool (BufId.pooled 0) = []) ∧
    ((submit_send c7Engine [] true 0).2 =
       [Event.prepWrite c7Engine.fd [], Event.submitted] ∧
     (submit_send c7Engine [] true 0).1.nextId = c7Engine.nextId + 1) ∧
    (handle_cqe c7EngineAfter 1 0 true 0).events =
      [Event.writeCb 0, Event.releaseBuf (BufId.pooled 0)] :=
  ⟨by decide,
   zero_length_send_write_cb.1 c7Engine (by decide) (by decide),
   zero_length_send_write_cb.2 c7EngineAfter 1 (BufId.pooled 0) c7Rec (by decide)
     (by decide) (by decide) (by decide) (by decide) (by decide) (by decide)⟩

end HySerial
